import Mathlib

/-!
Verification development for the CineMatch AI single-page application
(`src/index.tsx`).  The `Simulator` component state, its three asynchronous
operations (`processScript`, `generateShotImage`, `generateVideo`) and the
pieces of the render tree the claims talk about are shallowly embedded as
pure Lean functions.  Asynchronous completions are modelled as explicit
state-update events applied, in some interleaving, to the current state —
exactly the semantics of React functional `setState` updaters on a single
UI thread.
-/

namespace CineMatch

/-- `interface Shot` (src/index.tsx lines 6-13).  `imageUrl?: string` and
`isLoadingImage?: boolean` are optional fields, so they are `Option`s here;
`none` is JavaScript `undefined` (a field never assigned). -/
structure ShotState where
  sceneHeader : String
  action : String
  cameraAngle : String
  visualDescription : String
  imageUrl : Option String := none
  isLoadingImage : Option Bool := none
deriving DecidableEq

/-- A casting entry as parsed from the model response: `{ name, match }`
(the response schema declares only these two fields).  `match` is a Lean
keyword, so the field is called `matchPct`. -/
structure CastingIn where
  name : String
  matchPct : Int
deriving DecidableEq

/-- A casting entry after `processScript` attaches the placeholder portrait:
`{ name, match, image }` (the `casting` field of `AnalysisResult`,
src/index.tsx line 21). -/
structure CastingOut where
  name : String
  matchPct : Int
  image : String
deriving DecidableEq

/-- The `analysis` object of the parsed JSON response.  Every field may be
absent from the parsed value (the schema is declarative only), hence the
`Option`s; the code spreads `...data.analysis` without touching the scalar
fields, but it does access `.casting` unguarded. -/
structure AnalysisIn where
  score : Option String := none
  genre : Option String := none
  audience : Option String := none
  strengths : Option (List String) := none
  weaknesses : Option (List String) := none
  casting : Option (List CastingIn) := none
deriving DecidableEq

/-- `interface AnalysisResult` as held in component state after the spread
`{...data.analysis, casting: ...}` (src/index.tsx lines 163-166). -/
structure AnalysisResult where
  score : Option String
  genre : Option String
  audience : Option String
  strengths : Option (List String)
  weaknesses : Option (List String)
  casting : List CastingOut
deriving DecidableEq

/-- One element of the parsed `shots` array: the four required text fields
of the response schema. -/
structure ShotIn where
  sceneHeader : String
  action : String
  cameraAngle : String
  visualDescription : String
deriving DecidableEq

/-- The parsed text-analysis response `data = JSON.parse(...)`.  Either
top-level field may be absent. -/
structure ParsedData where
  analysis : Option AnalysisIn := none
  shots : Option (List ShotIn) := none
deriving DecidableEq

/-- The `view` state: `"input" | "processing" | "results"`. -/
inductive View where
  | input
  | processing
  | results
deriving DecidableEq

/-- The `Simulator` component state (src/index.tsx lines 85-91). -/
structure SimState where
  view : View
  script : String
  shots : List ShotState
  analysis : Option AnalysisResult
  videoUrl : Option String
  isVideoLoading : Bool
  processingStep : Nat
deriving DecidableEq

/-- Observable side effects of the operations: console logging, the blocking
`alert`, spawning a `generateShotImage(shot, index)` invocation for one shot
(`Effect.generateImage i`), the single API request a `generateShotImage`
invocation performs (`Effect.imageApiCall i`), and spawning
`generateVideo(script)`. -/
inductive Effect where
  | consoleError (msg : String)
  | alert (msg : String)
  | generateImage (i : Nat)
  | imageApiCall (i : Nat)
  | generateVideoCall
deriving DecidableEq

/-- `ACTOR_IMAGES` (src/index.tsx lines 39-44). -/
def ACTOR_IMAGES : List String := [
  "https://images.unsplash.com/photo-1500648767791-00dcc994a43e?w=100&h=100&fit=crop",
  "https://images.unsplash.com/photo-1494790108377-be9c29b29330?w=100&h=100&fit=crop",
  "https://images.unsplash.com/photo-1507003211169-0a1dd7228f2d?w=100&h=100&fit=crop",
  "https://images.unsplash.com/photo-1438761681033-6461ffad8d80?w=100&h=100&fit=crop"
]

/-- Index-carrying map implementing
`data.analysis.casting.map((c, i) => ({ ...c, image: ACTOR_IMAGES[i % ACTOR_IMAGES.length] }))`
(src/index.tsx line 165); `k` is the index of the head element. -/
def castingWithImagesFrom (k : Nat) : List CastingIn → List CastingOut
  | [] => []
  | c :: rest =>
    { name := c.name, matchPct := c.matchPct,
      image := ACTOR_IMAGES.getD (k % ACTOR_IMAGES.length) "" }
      :: castingWithImagesFrom (k + 1) rest

/-- The casting mapping of `processScript`, starting at index 0. -/
def castingWithImages (cs : List CastingIn) : List CastingOut :=
  castingWithImagesFrom 0 cs

/-- A freshly parsed shot enters state with neither `imageUrl` nor
`isLoadingImage` assigned (`setShots(data.shots || [])`, line 168). -/
def mkShotState (s : ShotIn) : ShotState :=
  { sceneHeader := s.sceneHeader, action := s.action,
    cameraAngle := s.cameraAngle, visualDescription := s.visualDescription }

/-! ## The `setShots` updaters of `generateShotImage`

`generateShotImage(shot, index)` performs three kinds of functional state
update (src/index.tsx lines 194-198, 220-227, 231-235).  Each one copies the
array, guards on `copy[index]` existing, and rewrites that single slot.
They are modelled as events applied to the current shots list. -/

/-- An asynchronous `setShots` update issued by some `generateShotImage(_, i)`
invocation: the pre-await loading-flag update, the success completion
carrying the extracted image URL, or the catch-branch failure update. -/
inductive ImgEvent where
  | start (i : Nat)
  | success (i : Nat) (url : String)
  | fail (i : Nat)
deriving DecidableEq

/-- The array index an event targets. -/
def ImgEvent.idx : ImgEvent → Nat
  | .start i => i
  | .success i _ => i
  | .fail i => i

/-- How one event rewrites the slot it targets:
`copy[index].isLoadingImage = true` (lines 194-198);
`copy[index].imageUrl = imageUrl; copy[index].isLoadingImage = false`
(lines 220-227); `copy[index].isLoadingImage = false` (lines 231-235). -/
def shotStep (sh : ShotState) : ImgEvent → ShotState
  | .start _ => { sh with isLoadingImage := some true }
  | .success _ url => { sh with imageUrl := some url, isLoadingImage := some false }
  | .fail _ => { sh with isLoadingImage := some false }

/-- Applying one `setShots` updater to the current shots list: the
`if(copy[index])` guard means an out-of-range index leaves the list
unchanged. -/
def applyEvent (s : List ShotState) (e : ImgEvent) : List ShotState :=
  match s[e.idx]? with
  | some sh => s.set e.idx (shotStep sh e)
  | none => s

/-- Applying a sequence of updates in the order the event loop runs them. -/
def runEvents (s : List ShotState) (tr : List ImgEvent) : List ShotState :=
  tr.foldl applyEvent s

/-- `data:mimeType;base64,data` extraction from the response parts
(src/index.tsx lines 210-218): the first part with `inlineData` wins, and
`imageUrl` stays the empty string when no part has one.  A part is modelled
by its optional `inlineData` as an (mimeType, data) pair. -/
def extractImageUrl : List (Option (String × String)) → String
  | [] => ""
  | some (mime, dat) :: _ => "data:" ++ mime ++ ";base64," ++ dat
  | none :: rest => extractImageUrl rest

/-- One `generateShotImage(shot, index)` invocation, parameterised by the
outcome of its single `ai.models.generateContent` call: the `setShots`
events it issues in order, and its other effects.  The success branch
extracts the URL from the response parts; the catch branch logs and clears
the loading flag.  Neither branch issues another API call. -/
def generateShotImageRun (i : Nat)
    (outcome : Except String (List (Option (String × String)))) :
    List ImgEvent × List Effect :=
  match outcome with
  | .ok parts =>
    ([ImgEvent.start i, ImgEvent.success i (extractImageUrl parts)],
     [Effect.imageApiCall i])
  | .error _ =>
    ([ImgEvent.start i, ImgEvent.fail i],
     [Effect.imageApiCall i, Effect.consoleError "Image gen error"])

/-! ## `processScript` (src/index.tsx lines 93-188) -/

/-- The `catch` branch of `processScript` (lines 183-187): log, blocking
alert, view back to `"input"`.  `effs` are the effects already emitted
before the throw. -/
def catchErrorHandler (st : SimState) (effs : List Effect) : SimState × List Effect :=
  ({ st with view := View.input },
   effs ++ [Effect.consoleError "Error processing script:",
            Effect.alert "Error processing script. Please try again."])

/-- The `try` block of `processScript` after a successful text call, on the
parsed `data`.  JavaScript property access on `undefined` throws, so a
missing `data.analysis`, missing `data.analysis.casting` (line 165) or — at
the unguarded `data.shots.forEach` of line 176, after the view has already
been switched to results — a missing `data.shots` surfaces as `.error`
carrying the state and effects accumulated so far.  The guarded
`setShots(data.shots || [])` of line 168 and the unused local
`shotsWithImages` of line 172 use `data.shots || []` and do not throw. -/
def processScriptTry (st : SimState) (data : ParsedData) :
    Except (SimState × List Effect) (SimState × List Effect) :=
  match data.analysis with
  | none => Except.error (st, [])
  | some an =>
    match an.casting with
    | none => Except.error (st, [])
    | some cast =>
      let analysisVal : AnalysisResult :=
        { score := an.score, genre := an.genre, audience := an.audience,
          strengths := an.strengths, weaknesses := an.weaknesses,
          casting := castingWithImages cast }
      let st1 := { st with analysis := some analysisVal }
      let st2 := { st1 with shots := (data.shots.getD []).map mkShotState }
      let st3 := { st2 with processingStep := 2 }
      let st4 := { st3 with view := View.results }
      match data.shots with
      | none => Except.error (st4, [])
      | some shotsIn =>
        Except.ok (st4,
          (List.range shotsIn.length).map Effect.generateImage
            ++ [Effect.generateVideoCall])

/-- `processScript`, parameterised by the outcome of the
`ai.models.generateContent` text call combined with `JSON.parse` (either
throws into the same catch).  It first switches the view to processing and
the step to 1, then runs the try block and the catch handler. -/
def processScript (st : SimState) (textResult : Except String ParsedData) :
    SimState × List Effect :=
  let st1 := { st with view := View.processing, processingStep := 1 }
  match textResult with
  | Except.error _ => catchErrorHandler st1 []
  | Except.ok data =>
    match processScriptTry st1 data with
    | Except.ok r => r
    | Except.error (st2, effs) => catchErrorHandler st2 effs

/-! ## `generateVideo` (src/index.tsx lines 239-282) -/

/-- `video?.uri` of one generated video. -/
structure VideoRef where
  uri : Option String
deriving DecidableEq

/-- One element of `response.generatedVideos`. -/
structure GeneratedVideo where
  video : Option VideoRef
deriving DecidableEq

/-- `operation.response`. -/
structure VideoOpResponse where
  generatedVideos : Option (List GeneratedVideo)
deriving DecidableEq

/-- The vendor operation-status object returned by `generateVideos` and by
each `getVideosOperation` poll. -/
structure VideoOperation where
  done : Bool
  response : Option VideoOpResponse
deriving DecidableEq

/-- The optional chain
`operation.response?.generatedVideos?.[0]?.video?.uri` (line 268). -/
def videoUriOf (op : VideoOperation) : Option String :=
  (((op.response.bind (·.generatedVideos)).bind (·[0]?)).bind (·.video)).bind (·.uri)

/-- The polling loop (lines 263-266): `while (!operation.done)` sleep 5000 ms
then call `getVideosOperation`.  `polls` is the stream of successive poll
results; a poll may itself throw (`.error`).  The result is `none` when the
loop is still running after the whole stream has been consumed (the loop
never exits by itself), otherwise the list of sleeps performed, in
milliseconds, paired with either the first `done` operation or the thrown
error. -/
def pollLoop (op : VideoOperation) (polls : List (Except String VideoOperation)) :
    Option (List Nat × Except String VideoOperation) :=
  if op.done then some ([], Except.ok op)
  else
    match polls with
    | [] => none
    | Except.error e :: _ => some ([5000], Except.error e)
    | Except.ok op2 :: rest =>
      (pollLoop op2 rest).map (fun r => (5000 :: r.1, r.2))

/-- `generateVideo(scriptText)`, parameterised by the outcome of the initial
`generateVideos` call, the stream of poll results, and the outcome of the
`fetch`/`blob`/`createObjectURL` sequence (an object URL on success).  The
result is `none` when the poll loop never terminates; otherwise the state
after the `finally`, and the effects.  Every throw lands in the single
catch, which only logs (line 278); the `finally` clears `isVideoLoading`
(line 280); `setVideoUrl` runs only when a URI was present and the fetch
succeeded (lines 269-275). -/
def generateVideoRun (st : SimState)
    (callResult : Except String VideoOperation)
    (polls : List (Except String VideoOperation))
    (fetchResult : Except String String) :
    Option (SimState × List Effect) :=
  let st1 := { st with isVideoLoading := true }
  match callResult with
  | Except.error _ =>
    some ({ st1 with isVideoLoading := false },
          [Effect.consoleError "Video generation failed"])
  | Except.ok op0 =>
    match pollLoop op0 polls with
    | none => none
    | some (_, Except.error _) =>
      some ({ st1 with isVideoLoading := false },
            [Effect.consoleError "Video generation failed"])
    | some (_, Except.ok opF) =>
      match videoUriOf opF with
      | none => some ({ st1 with isVideoLoading := false }, [])
      | some _ =>
        match fetchResult with
        | Except.error _ =>
          some ({ st1 with isVideoLoading := false },
                [Effect.consoleError "Video generation failed"])
        | Except.ok objUrl =>
          some ({ st1 with videoUrl := some objUrl, isVideoLoading := false }, [])

/-! ## The video slot of the results view (src/index.tsx lines 382-394) -/

/-- What the video slot renders: `videoUrl ? <video .../> : placeholder`.
The placeholder always contains the spinner `div`, and its caption depends
on `isVideoLoading`. -/
inductive VideoSlotView where
  | videoElement (src : String)
  | placeholder (spinner : Bool) (caption : String)
deriving DecidableEq

/-- The render of the video slot as a function of the two state fields. -/
def renderVideoSlot (videoUrl : Option String) (isVideoLoading : Bool) : VideoSlotView :=
  match videoUrl with
  | some u => VideoSlotView.videoElement u
  | none =>
    VideoSlotView.placeholder true
      (if isVideoLoading then "Generando video con Veo..." else "Esperando inicio...")

/-! ## Per-shot lifecycle representations (claim C3)

The four abstract per-shot states, characterised by the two fields that
represent them.  `isLoadingImage = none` is the never-assigned flag of a
freshly parsed shot. -/

/-- Not yet requested: both optional fields never assigned. -/
def notRequestedRepB (sh : ShotState) : Bool :=
  match sh.isLoadingImage, sh.imageUrl with
  | none, none => true
  | _, _ => false

/-- Loading: the flag was set to `true` and no image has arrived. -/
def loadingRepB (sh : ShotState) : Bool :=
  match sh.isLoadingImage, sh.imageUrl with
  | some true, none => true
  | _, _ => false

/-- Loaded: the completion assigned `imageUrl` and cleared the flag. -/
def loadedRepB (sh : ShotState) : Bool :=
  match sh.isLoadingImage, sh.imageUrl with
  | some false, some _ => true
  | _, _ => false

/-- Failed: the catch branch cleared the flag, `imageUrl` never assigned. -/
def failedRepB (sh : ShotState) : Bool :=
  match sh.isLoadingImage, sh.imageUrl with
  | some false, none => true
  | _, _ => false

/-- Exactly one of the four representations holds for the shot. -/
def inExactlyOneShotStateB (sh : ShotState) : Bool :=
  ((if notRequestedRepB sh then 1 else 0) + (if loadingRepB sh then 1 else 0)
    + (if loadedRepB sh then 1 else 0) + (if failedRepB sh then 1 else 0) : Nat) == 1

/-- Shape of the event subsequence a single run issues for one shot index:
nothing yet, started, started-then-succeeded, or started-then-failed
(`generateShotImageRun` produces exactly the last two as full sequences). -/
def perShotOkB (i : Nat) (l : List ImgEvent) : Bool :=
  match l with
  | [] => true
  | [ImgEvent.start j] => j == i
  | [ImgEvent.start j, ImgEvent.success k _] => j == i && k == i
  | [ImgEvent.start j, ImgEvent.fail k] => j == i && k == i
  | _ => false

/-- A trace of `setShots` updates belonging to one processing run over `n`
shots: every event targets an index below `n`, and per index the events
appear in a lifecycle-consistent order. -/
def validTraceB (n : Nat) (tr : List ImgEvent) : Bool :=
  tr.all (fun e => ImgEvent.idx e < n)
    && (List.range n).all (fun i => perShotOkB i (tr.filter (fun e => ImgEvent.idx e == i)))

/-- A concrete `Simulator` state, as mounted (src/index.tsx lines 85-91),
used to instantiate universally quantified theorems. -/
def sampleState : SimState :=
  { view := View.input, script := "", shots := [], analysis := none,
    videoUrl := none, isVideoLoading := false, processingStep := 0 }

/-! ## Helper lemmas -/

theorem length_applyEvent (s : List ShotState) (e : ImgEvent) :
    (applyEvent s e).length = s.length := by
  unfold applyEvent
  cases h : s[ImgEvent.idx e]? <;> simp

theorem getElem?_applyEvent (s : List ShotState) (e : ImgEvent) (j : Nat) :
    (applyEvent s e)[j]? =
      if ImgEvent.idx e = j then (s[j]?).map (fun sh => shotStep sh e) else s[j]? := by
  unfold applyEvent
  by_cases hij : ImgEvent.idx e = j
  · subst hij
    cases h : s[ImgEvent.idx e]? with
    | none => simp [h]
    | some sh =>
      obtain ⟨hlt, hv⟩ := List.getElem?_eq_some_iff.mp h
      simp [h, List.getElem?_set_self hlt]
  · cases h : s[ImgEvent.idx e]? with
    | none => simp [hij]
    | some sh => simp [List.getElem?_set_ne hij, hij]

/-- The evolution of one slot under a sequence of updates, seen from that
slot alone. -/
def perShotFold (o : Option ShotState) (l : List ImgEvent) : Option ShotState :=
  l.foldl (fun acc e => acc.map (fun sh => shotStep sh e)) o

theorem getElem?_runEvents (s : List ShotState) (tr : List ImgEvent) (j : Nat) :
    (runEvents s tr)[j]? = perShotFold s[j]? (tr.filter (fun e => ImgEvent.idx e == j)) := by
  induction tr generalizing s with
  | nil => rfl
  | cons e tr ih =>
    show (runEvents (applyEvent s e) tr)[j]? = _
    rw [ih, getElem?_applyEvent, List.filter_cons]
    by_cases hij : ImgEvent.idx e = j
    · simp [hij, perShotFold]
    · simp [hij, perShotFold]

theorem perShotOkB_shapes (i : Nat) (l : List ImgEvent) (h : perShotOkB i l = true) :
    l = [] ∨ l = [ImgEvent.start i] ∨
      (∃ u, l = [ImgEvent.start i, ImgEvent.success i u]) ∨
      l = [ImgEvent.start i, ImgEvent.fail i] := by
  rcases l with _ | ⟨e1, _ | ⟨e2, _ | ⟨e3, rest⟩⟩⟩
  · exact Or.inl rfl
  · cases e1 <;> simp [perShotOkB] at h
    subst h
    exact Or.inr (Or.inl rfl)
  · cases e1 <;> cases e2 <;> simp [perShotOkB] at h
    · obtain ⟨h1, h2⟩ := h
      subst h1
      subst h2
      exact Or.inr (Or.inr (Or.inl ⟨_, rfl⟩))
    · obtain ⟨h1, h2⟩ := h
      subst h1
      subst h2
      exact Or.inr (Or.inr (Or.inr rfl))
  · cases e1 <;> cases e2 <;> simp [perShotOkB] at h

theorem perShotFold_fresh (i : Nat) (l : List ImgEvent) (sh0 : ShotState)
    (h0u : sh0.imageUrl = none) (h0l : sh0.isLoadingImage = none)
    (hok : perShotOkB i l = true) :
    ∃ sh, perShotFold (some sh0) l = some sh ∧ inExactlyOneShotStateB sh = true := by
  rcases perShotOkB_shapes i l hok with h | h | ⟨u, h⟩ | h <;> subst h
  · exact ⟨sh0, rfl, by
      simp [inExactlyOneShotStateB, notRequestedRepB, loadingRepB, loadedRepB,
        failedRepB, h0u, h0l]⟩
  · refine ⟨_, rfl, ?_⟩
    simp [perShotFold, inExactlyOneShotStateB, notRequestedRepB, loadingRepB,
      loadedRepB, failedRepB, shotStep, h0u]
  · refine ⟨_, rfl, ?_⟩
    simp [perShotFold, inExactlyOneShotStateB, notRequestedRepB, loadingRepB,
      loadedRepB, failedRepB, shotStep]
  · refine ⟨_, rfl, ?_⟩
    simp [perShotFold, inExactlyOneShotStateB, notRequestedRepB, loadingRepB,
      loadedRepB, failedRepB, shotStep, h0u]

theorem castingWithImagesFrom_getElem? (cs : List CastingIn) (k i : Nat) :
    (castingWithImagesFrom k cs)[i]? =
      (cs[i]?).map (fun c =>
        { name := c.name, matchPct := c.matchPct,
          image := ACTOR_IMAGES.getD ((k + i) % ACTOR_IMAGES.length) "" }) := by
  induction cs generalizing k i with
  | nil => simp [castingWithImagesFrom]
  | cons c rest ih =>
    cases i with
    | zero => simp [castingWithImagesFrom]
    | succ n =>
      simp only [castingWithImagesFrom, List.getElem?_cons_succ, ih]
      have harith : k + 1 + n = k + (n + 1) := by omega
      rw [harith]

/-! ## Claims -/

/-- C5: if the text-analysis call fails (throws), `processScript` shows the
blocking alert and resets the view state to `"input"`. -/
theorem C5_text_failure_alert_resets_input (st : SimState) (e : String) :
    (processScript st (Except.error e)).1.view = View.input ∧
      Effect.alert "Error processing script. Please try again." ∈
        (processScript st (Except.error e)).2 := by
  constructor
  · rfl
  · simp [processScript, catchErrorHandler]

/-- C7: the i-th casting suggestion (0-based) is assigned the placeholder
portrait `ACTOR_IMAGES[i % 4]`, cycling by index through the fixed pool of
four images. -/
theorem C7_casting_placeholder_cycle (cs : List CastingIn) (i : Nat)
    (h : i < cs.length) :
    ∃ c, (castingWithImages cs)[i]? = some c ∧
      c.image = ACTOR_IMAGES.getD (i % 4) "" := by
  have hx := castingWithImagesFrom_getElem? cs 0 i
  rw [List.getElem?_eq_getElem h] at hx
  refine ⟨_, hx, ?_⟩
  have hlen : ACTOR_IMAGES.length = 4 := rfl
  simp [hlen]

/-- Witness for C7 at a five-element casting list: index 4 cycles back to
the first portrait. -/
theorem C7_casting_placeholder_cycle_witness :
    ∃ c, (castingWithImages
        [{ name := "Ana", matchPct := 92 }, { name := "Ben", matchPct := 85 },
         { name := "Cy", matchPct := 77 }, { name := "Di", matchPct := 64 },
         { name := "Eva", matchPct := 51 }])[4]? = some c ∧
      c.image = ACTOR_IMAGES.getD (4 % 4) "" :=
  C7_casting_placeholder_cycle _ 4 (by decide)

/-- C10: a well-formed parsed response lacking `analysis`, `analysis.casting`
or `shots` makes the unguarded accesses in `processScript` throw, so the
catch branch runs: the blocking alert is shown and the view resets to
`"input"`. -/
theorem C10_missing_fields_throw_alert_input (st : SimState) (data : ParsedData)
    (h : data.analysis = none ∨
         (∃ an, data.analysis = some an ∧ an.casting = none) ∨
         data.shots = none) :
    (processScript st (Except.ok data)).1.view = View.input ∧
      Effect.alert "Error processing script. Please try again." ∈
        (processScript st (Except.ok data)).2 := by
  unfold processScript
  cases hA : data.analysis with
  | none => simp [processScriptTry, hA, catchErrorHandler]
  | some an =>
    cases hC : an.casting with
    | none => simp [processScriptTry, hA, hC, catchErrorHandler]
    | some cast =>
      have hS : data.shots = none := by
        rcases h with h | ⟨an2, han2, hc2⟩ | h
        · rw [hA] at h
          cases h
        · rw [hA] at han2
          injection han2 with he
          subst he
          rw [hC] at hc2
          cases hc2
        · exact h
      simp [processScriptTry, hA, hC, hS, catchErrorHandler]

/-- Witness for C10 on a parsed response with no fields at all. -/
theorem C10_missing_fields_throw_alert_input_witness :
    (processScript sampleState (Except.ok { analysis := none, shots := none })).1.view
        = View.input ∧
      Effect.alert "Error processing script. Please try again." ∈
        (processScript sampleState (Except.ok { analysis := none, shots := none })).2 :=
  C10_missing_fields_throw_alert_input sampleState _ (Or.inl rfl)

/-- C9: whenever `generateVideo` terminates — video produced, no URI
returned, or any call threw — `isVideoLoading` is `false` afterwards,
because the `finally` branch always clears it. -/
theorem C9_generateVideo_always_clears_loading (st : SimState)
    (cr : Except String VideoOperation) (polls : List (Except String VideoOperation))
    (fr : Except String String) (st2 : SimState) (effs : List Effect)
    (h : generateVideoRun st cr polls fr = some (st2, effs)) :
    st2.isVideoLoading = false := by
  unfold generateVideoRun at h
  dsimp only at h
  repeat' split at h
  all_goals cases h
  all_goals rfl

/-- Witness for C9: a run whose initial `generateVideos` call throws. -/
theorem C9_generateVideo_always_clears_loading_witness :
    ({ sampleState with isVideoLoading := false } : SimState).isVideoLoading = false :=
  C9_generateVideo_always_clears_loading sampleState (Except.error "quota") []
    (Except.error "network")
    { sampleState with isVideoLoading := false }
    [Effect.consoleError "Video generation failed"] rfl

/-- C1: when the video-generation operation fails (any call in
`generateVideo` throws — which is exactly when the catch branch logs
"Video generation failed"), the failure is logged to the console only (no
other effect), `videoUrl` stays `null`, and the results view keeps
rendering the spinner placeholder instead of a video element. -/
theorem C1_video_failure_console_only_spinner (st : SimState)
    (cr : Except String VideoOperation) (polls : List (Except String VideoOperation))
    (fr : Except String String) (st2 : SimState) (effs : List Effect)
    (h0 : st.videoUrl = none)
    (h : generateVideoRun st cr polls fr = some (st2, effs))
    (hthrew : Effect.consoleError "Video generation failed" ∈ effs) :
    effs = [Effect.consoleError "Video generation failed"] ∧
      st2.videoUrl = none ∧
      renderVideoSlot st2.videoUrl st2.isVideoLoading =
        VideoSlotView.placeholder true "Esperando inicio..." := by
  unfold generateVideoRun at h
  dsimp only at h
  repeat' split at h
  all_goals cases h
  all_goals simp at hthrew
  all_goals exact ⟨rfl, h0, by simp [renderVideoSlot, h0]⟩

/-- Witness for C1: the initial `generateVideos` call throws. -/
theorem C1_video_failure_console_only_spinner_witness :
    [Effect.consoleError "Video generation failed"]
        = [Effect.consoleError "Video generation failed"] ∧
      ({ sampleState with isVideoLoading := false } : SimState).videoUrl = none ∧
      renderVideoSlot ({ sampleState with isVideoLoading := false } : SimState).videoUrl
          ({ sampleState with isVideoLoading := false } : SimState).isVideoLoading =
        VideoSlotView.placeholder true "Esperando inicio..." :=
  C1_video_failure_console_only_spinner sampleState (Except.error "quota") []
    (Except.error "network") { sampleState with isVideoLoading := false }
    [Effect.consoleError "Video generation failed"] rfl rfl (by simp)

/-- C4: the video polling loop waits a fixed 5000 ms between consecutive
status checks — every sleep it performs is exactly 5000 ms, with no backoff
— and it has no timeout: when it exits, either the final operation reports
`done` or a poll call threw, and as long as the remote operation is not
done and no call throws the loop never exits. -/
theorem C4_poll_fixed_interval_no_timeout (op : VideoOperation)
    (polls : List (Except String VideoOperation)) :
    (∀ ds r, pollLoop op polls = some (ds, r) →
        (∀ d ∈ ds, d = 5000) ∧ ∀ opF, r = Except.ok opF → opF.done = true) ∧
      (op.done = false →
        (∀ p ∈ polls, ∃ o, p = Except.ok o ∧ o.done = false) →
        pollLoop op polls = none) := by
  induction polls generalizing op with
  | nil =>
    constructor
    · intro ds r h
      unfold pollLoop at h
      by_cases hd : op.done = true
      · rw [if_pos hd] at h
        obtain ⟨h1, h2⟩ := Prod.mk.injEq .. ▸ Option.some.inj h
        subst h1
        subst h2
        exact ⟨by simp, fun opF hF => by cases hF; exact hd⟩
      · rw [if_neg hd] at h
        cases h
    · intro hd _
      unfold pollLoop
      rw [if_neg (by simp [hd])]
  | cons p rest ih =>
    constructor
    · intro ds r h
      unfold pollLoop at h
      by_cases hd : op.done = true
      · rw [if_pos hd] at h
        obtain ⟨h1, h2⟩ := Prod.mk.injEq .. ▸ Option.some.inj h
        subst h1
        subst h2
        exact ⟨by simp, fun opF hF => by cases hF; exact hd⟩
      · rw [if_neg hd] at h
        cases p with
        | error e =>
          obtain ⟨h1, h2⟩ := Prod.mk.injEq .. ▸ Option.some.inj h
          subst h1
          subst h2
          exact ⟨by simp, fun opF hF => by cases hF⟩
        | ok op2 =>
          dsimp only at h
          cases hrec : pollLoop op2 rest with
          | none =>
            rw [hrec] at h
            cases h
          | some pr =>
            rw [hrec] at h
            obtain ⟨ds2, r2⟩ := pr
            obtain ⟨h1, h2⟩ := Prod.mk.injEq .. ▸ Option.some.inj h
            subst h1
            subst h2
            obtain ⟨hall, hdone⟩ := (ih op2).1 ds2 r2 hrec
            refine ⟨?_, hdone⟩
            intro d hd2
            rcases List.mem_cons.mp hd2 with h5 | h5
            · exact h5
            · exact hall d h5
    · intro hd hall
      obtain ⟨o, ho, hod⟩ := hall p (List.mem_cons_self p rest)
      subst ho
      unfold pollLoop
      rw [if_neg (by simp [hd])]
      dsimp only
      rw [(ih o).2 hod (fun q hq => hall q (List.mem_cons_of_mem _ hq))]
      rfl

/-- Witness for C4: a pending operation followed by one successful `done`
poll — one 5000 ms sleep, exit with `done` — and a never-done stream on
which the loop does not exit. -/
theorem C4_poll_fixed_interval_no_timeout_witness :
    ((∀ d ∈ [5000], d = 5000) ∧
      (∀ opF, (Except.ok { done := true, response := none } :
          Except String VideoOperation) = Except.ok opF → opF.done = true)) ∧
      pollLoop { done := false, response := none }
        [Except.ok { done := false, response := none }] = none :=
  ⟨(C4_poll_fixed_interval_no_timeout { done := false, response := none }
      [Except.ok { done := true, response := none }]).1
      [5000] (Except.ok { done := true, response := none }) rfl,
   (C4_poll_fixed_interval_no_timeout { done := false, response := none }
      [Except.ok { done := false, response := none }]).2 rfl
      (fun p hp => ⟨{ done := false, response := none }, by simpa using hp, rfl⟩)⟩

/-- C2 counterexample: the completion callback of a request from a previous
run DOES alter the shots state observed by the subsequent run.  The
component never resets `shots` on restart and never cancels requests; a
stale completion applies its functional updater to whatever `shots` list is
current.  Here the subsequent run has one fresh shot at index 0, and the
stale completion for index 0 overwrites it. -/
theorem C2_stale_completion_counterexample :
    applyEvent
        [mkShotState { sceneHeader := "INT. COFFEE SHOP - DAY",
                       action := "Jamie stands up", cameraAngle := "WIDE",
                       visualDescription := "a rain-streaked window" }]
        (ImgEvent.success 0 "data:image/png;base64,stale") ≠
      [mkShotState { sceneHeader := "INT. COFFEE SHOP - DAY",
                     action := "Jamie stands up", cameraAngle := "WIDE",
                     visualDescription := "a rain-streaked window" }] := by
  decide

/-- C2 amended: an in-flight completion races against the current state, not
against discarded state — it is applied to whatever shots list is current
when it fires.  If its index is within the current array's bounds it
overwrites that slot (assigning its `imageUrl` and clearing the loading
flag), thereby altering the shots state observed by the subsequent run;
only when its index is out of bounds (the `if(copy[index])` guard fails)
does it leave the state unchanged. -/
theorem C2_stale_completion_hits_current_state (s : List ShotState) (i : Nat)
    (url : String) :
    (i < s.length →
      ∃ sh, s[i]? = some sh ∧
        (applyEvent s (ImgEvent.success i url))[i]? =
          some { sh with imageUrl := some url, isLoadingImage := some false }) ∧
      (s.length ≤ i → applyEvent s (ImgEvent.success i url) = s) := by
  constructor
  · intro hi
    refine ⟨s[i], List.getElem?_eq_getElem hi, ?_⟩
    rw [getElem?_applyEvent]
    simp only [ImgEvent.idx, if_pos rfl, List.getElem?_eq_getElem hi, Option.map_some]
    rfl
  · intro hi
    unfold applyEvent
    have hnone : s[ImgEvent.idx (ImgEvent.success i url)]? = none :=
      List.getElem?_eq_none (by simpa [ImgEvent.idx] using hi)
    rw [hnone]

/-- A concrete freshly parsed shot, for instantiating theorems. -/
def sampleFreshShot : ShotState :=
  mkShotState { sceneHeader := "EXT. STREET - NIGHT", action := "She freezes",
                cameraAngle := "CLOSE", visualDescription := "a red trench coat" }

/-- Witness for the amended C2: both the in-bounds overwrite and the
out-of-bounds no-op, on a concrete one-shot list. -/
theorem C2_stale_completion_hits_current_state_witness :
    (∃ sh, ([sampleFreshShot] : List ShotState)[0]? = some sh ∧
        (applyEvent [sampleFreshShot]
          (ImgEvent.success 0 "data:image/png;base64,zz"))[0]? =
          some { sh with imageUrl := some "data:image/png;base64,zz",
                         isLoadingImage := some false }) ∧
      applyEvent [sampleFreshShot] (ImgEvent.success 3 "data:image/png;base64,zz") =
        [sampleFreshShot] :=
  ⟨(C2_stale_completion_hits_current_state _ 0 _).1 (by decide),
   (C2_stale_completion_hits_current_state _ 3 _).2 (by decide)⟩

/-- C6: if the image-generation call for a shot fails (throws), that shot's
`isLoadingImage` flag is cleared, its slot is left without an image
(`imageUrl` remains unset), and no retry is issued — the invocation's
effects hold exactly one API call and no further `generateShotImage`
invocation. -/
theorem C6_image_failure_no_image_no_retry (s : List ShotState) (i : Nat)
    (e : String) (sh0 : ShotState)
    (hi : s[i]? = some sh0) (h0 : sh0.imageUrl = none) :
    (∃ sh, (runEvents s (generateShotImageRun i (Except.error e)).1)[i]? = some sh ∧
        sh.isLoadingImage = some false ∧ sh.imageUrl = none) ∧
      (generateShotImageRun i (Except.error e)).2.count (Effect.imageApiCall i) = 1 ∧
      ∀ j, Effect.generateImage j ∉ (generateShotImageRun i (Except.error e)).2 := by
  refine ⟨?_, by simp [generateShotImageRun], by simp [generateShotImageRun]⟩
  show ∃ sh, (runEvents s [ImgEvent.start i, ImgEvent.fail i])[i]? = some sh ∧
    sh.isLoadingImage = some false ∧ sh.imageUrl = none
  have h1 : (runEvents s [ImgEvent.start i, ImgEvent.fail i])[i]?
      = (applyEvent (applyEvent s (ImgEvent.start i)) (ImgEvent.fail i))[i]? := rfl
  rw [h1, getElem?_applyEvent, getElem?_applyEvent]
  simp only [ImgEvent.idx, if_pos rfl, hi, Option.map_some]
  exact ⟨_, rfl, rfl, h0⟩

/-- Witness for C6 on a concrete fresh one-shot list. -/
theorem C6_image_failure_no_image_no_retry_witness :
    (∃ sh, (runEvents [sampleFreshShot]
          (generateShotImageRun 0 (Except.error "quota")).1)[0]? = some sh ∧
        sh.isLoadingImage = some false ∧ sh.imageUrl = none) ∧
      (generateShotImageRun 0 (Except.error "quota")).2.count (Effect.imageApiCall 0) = 1 ∧
      ∀ j, Effect.generateImage j ∉ (generateShotImageRun 0 (Except.error "quota")).2 :=
  C6_image_failure_no_image_no_retry _ 0 "quota" _ rfl rfl

/-- C8: on the success path, `processScript` issues exactly one
`generateShotImage` invocation per parsed shot (one for each index below
the shots array length, none beyond it), and a completion's `setShots`
updater changes only its own array slot: every other shot and every other
state field (analysis, videoUrl, view, isVideoLoading, processingStep,
script) is unchanged by it. -/
theorem C8_one_call_per_shot_completion_slot_local (st : SimState)
    (data : ParsedData) (an : AnalysisIn) (cast : List CastingIn)
    (shotsIn : List ShotIn) (hA : data.analysis = some an)
    (hC : an.casting = some cast) (hS : data.shots = some shotsIn)
    (i : Nat) (url : String) (st2 : SimState) :
    ((processScript st (Except.ok data)).2.count (Effect.generateImage i)
        = if i < shotsIn.length then 1 else 0) ∧
      (({ st2 with shots := applyEvent st2.shots (ImgEvent.success i url) }
          : SimState).analysis = st2.analysis ∧
        ({ st2 with shots := applyEvent st2.shots (ImgEvent.success i url) }
          : SimState).videoUrl = st2.videoUrl ∧
        ({ st2 with shots := applyEvent st2.shots (ImgEvent.success i url) }
          : SimState).view = st2.view ∧
        ({ st2 with shots := applyEvent st2.shots (ImgEvent.success i url) }
          : SimState).isVideoLoading = st2.isVideoLoading ∧
        ({ st2 with shots := applyEvent st2.shots (ImgEvent.success i url) }
          : SimState).processingStep = st2.processingStep ∧
        ({ st2 with shots := applyEvent st2.shots (ImgEvent.success i url) }
          : SimState).script = st2.script ∧
        ∀ j, j ≠ i →
          (applyEvent st2.shots (ImgEvent.success i url))[j]? = st2.shots[j]?) := by
  constructor
  · have heff : (processScript st (Except.ok data)).2
        = (List.range shotsIn.length).map Effect.generateImage
            ++ [Effect.generateVideoCall] := by
      simp [processScript, processScriptTry, hA, hC, hS]
    rw [heff, List.count_append]
    have h1 : ((List.range shotsIn.length).map Effect.generateImage).count
        (Effect.generateImage i) = (List.range shotsIn.length).count i :=
      List.count_map_of_injective _ _ (fun a b hab => by injection hab) i
    have h2 : (List.range shotsIn.length).count i
        = if i < shotsIn.length then 1 else 0 := by
      by_cases hlt : i < shotsIn.length
      · rw [if_pos hlt]
        exact List.count_eq_one_of_mem (List.nodup_range _) (List.mem_range.mpr hlt)
      · rw [if_neg hlt]
        exact List.count_eq_zero_of_not_mem (fun hmem => hlt (List.mem_range.mp hmem))
    have h3 : ([Effect.generateVideoCall] : List Effect).count
        (Effect.generateImage i) = 0 := by simp
    rw [h1, h2, h3]
    omega
  · refine ⟨rfl, rfl, rfl, rfl, rfl, rfl, ?_⟩
    intro j hj
    have hne : ¬(ImgEvent.idx (ImgEvent.success i url) = j) := by
      simpa [ImgEvent.idx] using fun h => hj h.symm
    rw [getElem?_applyEvent, if_neg hne]

/-- A concrete parsed casting suggestion. -/
def sampleCastingIn : CastingIn := { name := "Ana", matchPct := 92 }

/-- A concrete parsed analysis object with one casting suggestion. -/
def sampleAnalysisIn : AnalysisIn := { casting := some [sampleCastingIn] }

/-- A concrete parsed shot. -/
def sampleShotIn : ShotIn :=
  { sceneHeader := "INT. COFFEE SHOP - DAY", action := "Jamie stands up",
    cameraAngle := "WIDE", visualDescription := "a rain-streaked window" }

/-- A concrete well-formed parsed text-analysis response. -/
def sampleData : ParsedData :=
  { analysis := some sampleAnalysisIn, shots := some [sampleShotIn] }

/-- Witness for C8 on the concrete one-shot response. -/
theorem C8_one_call_per_shot_completion_slot_local_witness :
    ((processScript sampleState (Except.ok sampleData)).2.count (Effect.generateImage 0)
        = if 0 < ([sampleShotIn] : List ShotIn).length then 1 else 0) ∧
      (({ sampleState with shots := applyEvent sampleState.shots (ImgEvent.success 0 "data:u") } : SimState).analysis = sampleState.analysis ∧
        ({ sampleState with shots := applyEvent sampleState.shots (ImgEvent.success 0 "data:u") } : SimState).videoUrl = sampleState.videoUrl ∧
        ({ sampleState with shots := applyEvent sampleState.shots (ImgEvent.success 0 "data:u") } : SimState).view = sampleState.view ∧
        ({ sampleState with shots := applyEvent sampleState.shots (ImgEvent.success 0 "data:u") } : SimState).isVideoLoading = sampleState.isVideoLoading ∧
        ({ sampleState with shots := applyEvent sampleState.shots (ImgEvent.success 0 "data:u") } : SimState).processingStep = sampleState.processingStep ∧
        ({ sampleState with shots := applyEvent sampleState.shots (ImgEvent.success 0 "data:u") } : SimState).script = sampleState.script ∧
        ∀ j, j ≠ 0 →
          (applyEvent sampleState.shots (ImgEvent.success 0 "data:u"))[j]?
            = sampleState.shots[j]?) :=
  C8_one_call_per_shot_completion_slot_local sampleState sampleData
    sampleAnalysisIn [sampleCastingIn] [sampleShotIn]
    rfl rfl rfl 0 "data:u" sampleState

/-- The full event sequence of any single `generateShotImage(_, i)`
invocation is lifecycle-consistent for index `i` (so any interleaving of the
per-shot invocations spawned by one `processScript` run, cut off at any
point, filters per index to a sequence accepted by `perShotOkB`). -/
theorem generateShotImageRun_perShotOk (i : Nat)
    (outcome : Except String (List (Option (String × String)))) :
    perShotOkB i (generateShotImageRun i outcome).1 = true := by
  cases outcome <;> simp [generateShotImageRun, perShotOkB]

/-- C3: at every point during and after processing — i.e. after any
lifecycle-consistent interleaving of the `setShots` updates of one run,
applied to the freshly parsed shots — every shot in the shots array is in
exactly one of the four states not-yet-requested, loading, loaded, failed,
as represented by its `isLoadingImage` flag and `imageUrl` field. -/
theorem C3_exactly_one_shot_state (s0 : List ShotState) (tr : List ImgEvent)
    (j : Nat)
    (hfresh : ∀ sh ∈ s0, sh.imageUrl = none ∧ sh.isLoadingImage = none)
    (hvalid : validTraceB s0.length tr = true)
    (hj : j < s0.length) :
    ∃ sh, (runEvents s0 tr)[j]? = some sh ∧ inExactlyOneShotStateB sh = true := by
  have hok : perShotOkB j (tr.filter (fun e => ImgEvent.idx e == j)) = true := by
    unfold validTraceB at hvalid
    rw [Bool.and_eq_true] at hvalid
    exact List.all_eq_true.mp hvalid.2 j (List.mem_range.mpr hj)
  have hsh0 : s0[j]? = some s0[j] := List.getElem?_eq_getElem hj
  obtain ⟨h0u, h0l⟩ := hfresh s0[j] (List.getElem_mem hj)
  rw [getElem?_runEvents, hsh0]
  exact perShotFold_fresh j _ s0[j] h0u h0l hok

/-- Witness for C3: two fresh shots, a trace where shot 0 loads
successfully and shot 1 starts then fails; the invariant is checked at
index 1. -/
theorem C3_exactly_one_shot_state_witness :
    ∃ sh, (runEvents [sampleFreshShot, sampleFreshShot]
        [ImgEvent.start 0, ImgEvent.start 1,
         ImgEvent.success 0 "data:image/png;base64,ok", ImgEvent.fail 1])[1]?
      = some sh ∧ inExactlyOneShotStateB sh = true :=
  C3_exactly_one_shot_state [sampleFreshShot, sampleFreshShot]
    [ImgEvent.start 0, ImgEvent.start 1,
     ImgEvent.success 0 "data:image/png;base64,ok", ImgEvent.fail 1]
    1 (by decide) (by decide) (by decide)

end CineMatch
